import Mathlib

/-!
# QuickScale: password-strength scoring and the password view-model

A shallow embedding of

* `quickscale/static/js/password_validation.js` (the Alpine.js component
  `passwordValidation`), and
* `quickscale_modules_auth/static/quickscale_modules_auth/js/auth.js`
  (`calculatePasswordStrength`, `updatePasswordStrength`).

JavaScript strings are sequences of UTF-16 code units; `length` counts code
units and a regular expression without the `u` flag matches code unit by code
unit.  All patterns used by the two files are a single character class, so
`re.test(s)` holds exactly when some code unit of `s` is accepted by the class.

The page that `updatePasswordStrength` works on is the tree of elements under
`field.parentElement`: `querySelector` takes the first match in document
order, `remove` detaches it with its subtree, and a property access on a
`null` parent throws.

The first line of `password_validation.js` calls the file empty; the code below
that comment defines the whole component, and the embedding follows the code.
-/

namespace QuickScale

/-! ## Strings and character classes -/

/-- A UTF-16 code unit, the element of a JavaScript string. -/
abbrev CodeUnit := Fin 65536

/-- A JavaScript string: a finite sequence of UTF-16 code units. -/
abbrev JSString := List CodeUnit

/-- UTF-16 encoding of one Unicode scalar value (a surrogate pair above the
basic plane). -/
def encodeChar (c : Char) : List CodeUnit :=
  if c.toNat < 0x10000 then [Fin.ofNat c.toNat]
  else
    [Fin.ofNat (0xD800 + (c.toNat - 0x10000) / 0x400),
     Fin.ofNat (0xDC00 + (c.toNat - 0x10000) % 0x400)]

/-- The JavaScript string denoted by a string literal. -/
def js (s : String) : JSString := s.toList.flatMap encodeChar

/-- A regular-expression character class: `[r₁r₂…]`, or `[^r₁r₂…]` when
`negated`.  Each range is a pair of inclusive code-unit bounds. -/
structure CharClass where
  negated : Bool
  ranges : List (Nat × Nat)

/-- Whether the class accepts one code unit. -/
def CharClass.accepts (cls : CharClass) (c : CodeUnit) : Bool :=
  xor cls.negated (cls.ranges.any fun r => decide (r.1 ≤ c.val) && decide (c.val ≤ r.2))

/-- The method `RegExp.prototype.test` for a pattern that is one character
class without flags: some code unit of the string is accepted. -/
def CharClass.test (cls : CharClass) (s : JSString) : Bool :=
  s.any cls.accepts

/-- The pattern `/[A-Z]/`. -/
def reUpper : CharClass := ⟨false, [(0x41, 0x5A)]⟩

/-- The pattern `/[a-z]/`. -/
def reLower : CharClass := ⟨false, [(0x61, 0x7A)]⟩

/-- The pattern `/[0-9]/`. -/
def reDigit : CharClass := ⟨false, [(0x30, 0x39)]⟩

/-- The pattern `/[^A-Za-z0-9]/` of `password_validation.js`. -/
def reSpecial : CharClass := ⟨true, [(0x41, 0x5A), (0x61, 0x7A), (0x30, 0x39)]⟩

/-! ## The view-model of `password_validation.js` -/

/-- The data fields of the object returned by `window.passwordValidation`. -/
structure ViewModel where
  password1 : JSString
  password2 : JSString
  score : Nat
  strength : String
  feedback : String
  color : String
  passwordsMatch : Bool
deriving DecidableEq, Repr

/-- The object literal as returned by `window.passwordValidation()`. -/
def passwordValidation : ViewModel :=
  { password1 := [], password2 := [], score := 0, strength := "", feedback := "",
    color := "", passwordsMatch := false }

/-- The compound assignment `this.score += n`. -/
def ViewModel.addScore (this : ViewModel) (n : Nat) : ViewModel :=
  { this with score := this.score + n }

/-- The three assignments to `strength`, `feedback` and `color` that the
method `checkPasswordStrength` always makes together. -/
def ViewModel.setTier (this : ViewModel) (strength feedback color : String) : ViewModel :=
  { this with strength := strength, feedback := feedback, color := color }

/-- The method `checkPasswordStrength`, statement by statement. -/
def checkPasswordStrength (this : ViewModel) : ViewModel :=
  let this := { this with score := 0 }
  if this.password1.length = 0 then
    this.setTier "" "" ""
  else
    let this := if this.password1.length ≥ 8 then this.addScore 1 else this
    let this := if this.password1.length ≥ 12 then this.addScore 1 else this
    let this := if reUpper.test this.password1 then this.addScore 1 else this
    let this := if reLower.test this.password1 then this.addScore 1 else this
    let this := if reDigit.test this.password1 then this.addScore 1 else this
    let this := if reSpecial.test this.password1 then this.addScore 1 else this
    let this := this.setTier "weak" "Password is too weak" "is-danger"
    let this := if this.score ≥ 4 then
        this.setTier "medium" "Password strength: Medium" "is-warning"
      else this
    let this := if this.score ≥ 6 then
        this.setTier "strong" "Password strength: Strong" "is-success"
      else this
    this

/-- The method `checkPasswordsMatch`; `===` on strings compares the code-unit
sequences. -/
def checkPasswordsMatch (this : ViewModel) : ViewModel :=
  if this.password2.length = 0 then
    { this with passwordsMatch := false }
  else
    { this with passwordsMatch := (this.password1 == this.password2) }

/-- The method `progressValue`. -/
def progressValue (this : ViewModel) : Nat := this.score

/-- The method `isSubmitDisabled`. -/
def isSubmitDisabled (this : ViewModel) : Bool :=
  decide (this.score < 4) || (decide (this.password2.length > 0) && !this.passwordsMatch)

/-- The method `matchMessage`. -/
def matchMessage (this : ViewModel) : String :=
  if this.password2.length = 0 then ""
  else if this.passwordsMatch then "Passwords match" else "Passwords do not match"

/-- The method `matchMessageClass`. -/
def matchMessageClass (this : ViewModel) : String :=
  if this.passwordsMatch then "is-success" else "is-danger"

/-- The callback that `init` registers with `$watch` on `password1`. -/
def watchPassword1 (this : ViewModel) : ViewModel :=
  checkPasswordsMatch (checkPasswordStrength this)

/-- The callback that `init` registers with `$watch` on `password2`. -/
def watchPassword2 (this : ViewModel) : ViewModel :=
  checkPasswordsMatch this

/-- A change of one of the two bound input fields. -/
inductive Change where
  | primary (value : JSString)
  | confirmation (value : JSString)

/-- One transition of the view-model: the bound field takes its new value and
the watcher registered for it runs. -/
def step (this : ViewModel) : Change → ViewModel
  | .primary v => watchPassword1 { this with password1 := v }
  | .confirmation v => watchPassword2 { this with password2 := v }

/-- The state after a sequence of changes, oldest first. -/
def run (this : ViewModel) (cs : List Change) : ViewModel :=
  cs.foldl step this

/-! ## The scorer and the indicator of `auth.js` -/

/-- The pattern `/\d/`: without the `u` flag the escape stands for `[0-9]`. -/
def reDigitEscape : CharClass := ⟨false, [(0x30, 0x39)]⟩

/-- The pattern `/[^a-zA-Z0-9]/` of `auth.js`. -/
def reSpecialAuth : CharClass := ⟨true, [(0x61, 0x7A), (0x41, 0x5A), (0x30, 0x39)]⟩

/-- The function `calculatePasswordStrength`, statement by statement. -/
def calculatePasswordStrength (password : JSString) : Nat :=
  let strength := 0
  let strength := if password.length ≥ 8 then strength + 1 else strength
  let strength := if password.length ≥ 12 then strength + 1 else strength
  let strength :=
    if reLower.test password && reUpper.test password then strength + 1 else strength
  let strength := if reDigitEscape.test password then strength + 1 else strength
  let strength := if reSpecialAuth.test password then strength + 1 else strength
  strength

/-- An element of the page, by what `updatePasswordStrength` reads or writes
of it: the tokens of its `class` attribute, the two style lengths, its text and
its colour. -/
structure Element where
  classList : List String
  marginTop : String
  fontSize : String
  textContent : String
  color : String
deriving DecidableEq, Repr

/-- Whether the element matches the selector `.password-strength`. -/
def Element.matchesSelector (e : Element) : Bool :=
  e.classList.contains "password-strength"

/-- A sequence of sibling elements, each with its subtree, in document order. -/
inductive Forest where
  | nil
  | cons (element : Element) (children : Forest) (siblings : Forest)
deriving DecidableEq, Repr

/-- The siblings of `f` followed by those of `g`. -/
def Forest.concat : Forest → Forest → Forest
  | .nil, g => g
  | .cons e c s, g => .cons e c (s.concat g)

/-- The elements of the forest that match `.password-strength`, in document
order (what `querySelectorAll` would return). -/
def Forest.matching : Forest → List Element
  | .nil => []
  | .cons e c s => (if e.matchesSelector then [e] else []) ++ c.matching ++ s.matching

/-- The forest without its first element, in document order, that matches
`.password-strength`: what `querySelector` finds and `remove` takes out,
subtree included.  There is no result when no element matches. -/
def Forest.removeFirst : Forest → Option Forest
  | .nil => none
  | .cons e c s =>
    if e.matchesSelector then some s
    else
      match c.removeFirst with
      | some c' => some (.cons e c' s)
      | none =>
        match s.removeFirst with
        | some s' => some (.cons e c s')
        | none => none

/-- The element `field.parentElement`, by its element children: those before
the field, the field with its own children, and those after it. -/
structure ParentElement where
  before : Forest
  field : Element
  inside : Forest
  after : Forest
deriving DecidableEq, Repr

/-- The element children of the parent, in document order. -/
def ParentElement.children (p : ParentElement) : Forest :=
  p.before.concat (.cons p.field p.inside p.after)

/-- Where the field stands: under a parent, or removed from the page, when
`field.parentElement` is `null` and `remaining` are the children left under
the element that was its parent. -/
inductive FieldState where
  | attached (parent : ParentElement)
  | detached (remaining : Forest)
deriving DecidableEq, Repr

/-- The element children under the parent of the field (its last parent when
the field has been removed). -/
def FieldState.children : FieldState → Forest
  | .attached p => p.children
  | .detached r => r

/-- The exception thrown by a property access on `null`. -/
inductive JSError where
  | typeError
deriving DecidableEq, Repr

/-- The first two statements of `updatePasswordStrength`: the first match of
`.password-strength` among the descendants of the parent (the elements before
the field, the field, its descendants, the elements after it) is removed with
its subtree.  When that match is the field itself, the field ends detached. -/
def removeIndicator (p : ParentElement) : FieldState :=
  match p.before.removeFirst with
  | some b => .attached { p with before := b }
  | none =>
    if p.field.matchesSelector then .detached (p.before.concat p.after)
    else
      match p.inside.removeFirst with
      | some i => .attached { p with inside := i }
      | none =>
        match p.after.removeFirst with
        | some a => .attached { p with after := a }
        | none => .attached p

/-- The function `updatePasswordStrength(field, strength)`.  `value` is
`field.value` and `field` says where the field stands.  Reading a property of
`field.parentElement` throws when the field is detached: on entry, or at
`appendChild` when the element just removed was the field itself.
`appendChild` puts the new element after the last child of the parent. -/
def updatePasswordStrength (value : JSString) (strength : Nat) (field : FieldState) :
    Except JSError FieldState :=
  match field with
  | .detached _ => .error .typeError
  | .attached parent =>
    let field := removeIndicator parent
    if value.length > 0 then
      let indicator : Element :=
        { classList := ["password-strength"], marginTop := "0.5rem", fontSize := "0.875rem",
          textContent := "", color := "" }
      let indicator :=
        if strength < 2 then
          { indicator with textContent := "⚠️ Weak password", color := "#dc3545" }
        else if strength < 4 then
          { indicator with textContent := "✓ Moderate password", color := "#ffc107" }
        else
          { indicator with textContent := "✓ Strong password", color := "#28a745" }
      match field with
      | .detached _ => .error .typeError
      | .attached parent =>
        .ok (.attached { parent with after := parent.after.concat (.cons indicator .nil .nil) })
    else
      .ok field

/-- The `input` listener that `auth.js` attaches to a password field. -/
def onInput (value : JSString) (field : FieldState) : Except JSError FieldState :=
  updatePasswordStrength value (calculatePasswordStrength value) field

/-- The texts of the `.password-strength` elements under the parent of the
field once the call has returned; there are none to read when it has thrown. -/
def indicatorTexts (r : Except JSError FieldState) : Option (List String) :=
  match r with
  | .ok s => some (s.children.matching.map Element.textContent)
  | .error _ => none

/-! ## Vocabulary of the specification -/

/-- An uppercase letter `A`–`Z`. -/
def isUpper (c : CodeUnit) : Prop := 0x41 ≤ c.val ∧ c.val ≤ 0x5A

/-- A lowercase letter `a`–`z`. -/
def isLower (c : CodeUnit) : Prop := 0x61 ≤ c.val ∧ c.val ≤ 0x7A

/-- A digit `0`–`9`. -/
def isDigit (c : CodeUnit) : Prop := 0x30 ≤ c.val ∧ c.val ≤ 0x39

instance (c : CodeUnit) : Decidable (isUpper c) := inferInstanceAs (Decidable (_ ∧ _))

instance (c : CodeUnit) : Decidable (isLower c) := inferInstanceAs (Decidable (_ ∧ _))

instance (c : CodeUnit) : Decidable (isDigit c) := inferInstanceAs (Decidable (_ ∧ _))

/-- The 0/1 indicator of a decidable proposition. -/
def indicator (P : Prop) [Decidable P] : Nat := if P then 1 else 0

/-- The scoring rule in the words of the specification (§4.1): six additive
predicates over the same string. -/
def specScore (p : JSString) : Nat :=
  indicator (p.length ≥ 8) + indicator (p.length ≥ 12)
    + indicator (∃ c ∈ p, isUpper c) + indicator (∃ c ∈ p, isLower c)
    + indicator (∃ c ∈ p, isDigit c)
    + indicator (∃ c ∈ p, ¬ isUpper c ∧ ¬ isLower c ∧ ¬ isDigit c)

/-- The tier mapping in the words of the specification (§4.1, §8): label,
feedback text and severity tag as a function of the score alone. -/
def specTier (score : Nat) : String × String × String :=
  if score = 0 then ("", "", "")
  else if score < 4 then ("weak", "Password is too weak", "is-danger")
  else if score < 6 then ("medium", "Password strength: Medium", "is-warning")
  else ("strong", "Password strength: Strong", "is-success")

/-- The match check in the words of the specification (§4.2). -/
def specMatches (primary confirmation : JSString) : Bool :=
  if confirmation = [] then false else decide (primary = confirmation)

/-- Consistency of the derived fields with the two password inputs (§3). -/
def Consistent (vm : ViewModel) : Prop :=
  vm.score = specScore vm.password1
    ∧ (vm.strength, vm.feedback, vm.color) = specTier vm.score
    ∧ vm.passwordsMatch = specMatches vm.password1 vm.password2

/-! ## Character classes -/

theorem test_reUpper (p : JSString) : reUpper.test p = true ↔ ∃ c ∈ p, isUpper c := by
  simp [CharClass.test, CharClass.accepts, reUpper, isUpper]

theorem test_reLower (p : JSString) : reLower.test p = true ↔ ∃ c ∈ p, isLower c := by
  simp [CharClass.test, CharClass.accepts, reLower, isLower]

theorem test_reDigit (p : JSString) : reDigit.test p = true ↔ ∃ c ∈ p, isDigit c := by
  simp [CharClass.test, CharClass.accepts, reDigit, isDigit]

theorem test_reSpecial (p : JSString) :
    reSpecial.test p = true ↔ ∃ c ∈ p, ¬ isUpper c ∧ ¬ isLower c ∧ ¬ isDigit c := by
  simp only [CharClass.test, List.any_eq_true]
  refine exists_congr fun c => and_congr_right fun _ => ?_
  simp only [CharClass.accepts, reSpecial, isUpper, isLower, isDigit, List.any_cons,
    List.any_nil, Bool.or_false, Bool.true_xor, Bool.not_eq_true', Bool.or_eq_false_iff,
    Bool.and_eq_false_iff, decide_eq_false_iff_not]
  omega

@[simp] theorem addScore_password1 (vm : ViewModel) (n : Nat) :
    (vm.addScore n).password1 = vm.password1 := rfl

@[simp] theorem addScore_score (vm : ViewModel) (n : Nat) :
    (vm.addScore n).score = vm.score + n := rfl

@[simp] theorem setTier_score (vm : ViewModel) (a b c : String) :
    (vm.setTier a b c).score = vm.score := rfl

@[simp] theorem setTier_password1 (vm : ViewModel) (a b c : String) :
    (vm.setTier a b c).password1 = vm.password1 := rfl

/-- A conditional `this.score += 1` adds the indicator of its condition. -/
theorem ite_addScore (c : Prop) [Decidable c] (vm : ViewModel) :
    (if c then vm.addScore 1 else vm) = vm.addScore (if c then 1 else 0) := by
  split <;> rfl

@[simp] theorem test_nil (cls : CharClass) : cls.test [] = false := rfl

theorem addScore_addScore (vm : ViewModel) (a b : Nat) :
    (vm.addScore a).addScore b = vm.addScore (a + b) := by
  simp [ViewModel.addScore, Nat.add_assoc]

/-- Every code unit is an uppercase letter, a lowercase letter, a digit, or
none of the three, so a non-empty string earns at least one point. -/
theorem specScore_pos (p : JSString) (h : p ≠ []) : 1 ≤ specScore p := by
  obtain ⟨c, hc⟩ := List.exists_mem_of_ne_nil p h
  unfold specScore indicator
  by_cases hU : isUpper c
  · have : ∃ c ∈ p, isUpper c := ⟨c, hc, hU⟩
    simp only [this, if_true]; omega
  by_cases hL : isLower c
  · have : ∃ c ∈ p, isLower c := ⟨c, hc, hL⟩
    simp only [this, if_true]; omega
  by_cases hD : isDigit c
  · have : ∃ c ∈ p, isDigit c := ⟨c, hc, hD⟩
    simp only [this, if_true]; omega
  · have : ∃ c ∈ p, ¬ isUpper c ∧ ¬ isLower c ∧ ¬ isDigit c := ⟨c, hc, hU, hL, hD⟩
    simp only [this, if_true]; omega

theorem specScore_nil : specScore [] = 0 := by
  simp [specScore, indicator]

theorem specScore_le (p : JSString) : specScore p ≤ 6 := by
  unfold specScore indicator
  split_ifs <;> omega

/-- The state that `checkPasswordStrength` leaves behind: the score of the
six additive predicates, and the three presentation fields of its tier. -/
theorem checkPasswordStrength_eq (vm : ViewModel) :
    checkPasswordStrength vm =
      ({ vm with score := specScore vm.password1 } : ViewModel).setTier
        (specTier (specScore vm.password1)).1 (specTier (specScore vm.password1)).2.1
        (specTier (specScore vm.password1)).2.2 := by
  by_cases h : vm.password1.length = 0
  · have hp : vm.password1 = [] := List.length_eq_zero.mp h
    simp [checkPasswordStrength, hp, specScore_nil, specTier]
  · have hp : vm.password1 ≠ [] := fun e => h (by simp [e])
    have h1 := specScore_pos _ hp
    have hs : specScore vm.password1
        = (if vm.password1.length ≥ 8 then 1 else 0) + (if vm.password1.length ≥ 12 then 1 else 0)
          + (if reUpper.test vm.password1 = true then 1 else 0)
          + (if reLower.test vm.password1 = true then 1 else 0)
          + (if reDigit.test vm.password1 = true then 1 else 0)
          + (if reSpecial.test vm.password1 = true then 1 else 0) := by
      simp only [test_reUpper, test_reLower, test_reDigit, test_reSpecial]
      rfl
    simp only [checkPasswordStrength, if_neg h, ite_addScore, addScore_password1]
    simp only [addScore_addScore, ← hs]
    generalize specScore vm.password1 = n at h1
    have h0 : n ≠ 0 := by omega
    by_cases h4 : 4 ≤ n <;> by_cases h6 : 6 ≤ n
    · have e4 : ¬ n < 4 := by omega
      have e6 : ¬ n < 6 := by omega
      simp [ViewModel.setTier, ViewModel.addScore, specTier, h4, h6, h0, e4, e6]
    · have e4 : ¬ n < 4 := by omega
      have e6 : n < 6 := by omega
      simp [ViewModel.setTier, ViewModel.addScore, specTier, h4, h6, h0, e4, e6]
    · omega
    · have e4 : n < 4 := by omega
      have e6 : n < 6 := by omega
      simp [ViewModel.setTier, ViewModel.addScore, specTier, h4, h6, h0, e4, e6]

theorem score_checkPasswordStrength (vm : ViewModel) :
    (checkPasswordStrength vm).score = specScore vm.password1 := by
  rw [checkPasswordStrength_eq]; rfl

theorem tier_checkPasswordStrength (vm : ViewModel) :
    ((checkPasswordStrength vm).strength, (checkPasswordStrength vm).feedback,
      (checkPasswordStrength vm).color) = specTier (specScore vm.password1) := by
  rw [checkPasswordStrength_eq]; rfl

theorem password1_checkPasswordStrength (vm : ViewModel) :
    (checkPasswordStrength vm).password1 = vm.password1 := by
  rw [checkPasswordStrength_eq]; rfl

theorem password2_checkPasswordStrength (vm : ViewModel) :
    (checkPasswordStrength vm).password2 = vm.password2 := by
  rw [checkPasswordStrength_eq]; rfl

/-- The state that `checkPasswordsMatch` leaves behind. -/
theorem checkPasswordsMatch_eq (vm : ViewModel) :
    checkPasswordsMatch vm
      = { vm with passwordsMatch := specMatches vm.password1 vm.password2 } := by
  unfold checkPasswordsMatch specMatches
  by_cases h : vm.password2 = []
  · simp [h]
  · have hl : vm.password2.length ≠ 0 := fun e => h (List.length_eq_zero.mp e)
    simp only [h, hl, if_false]
    congr 1
    exact Bool.eq_iff_iff.mpr (by simp)

theorem specTier_eq_none_iff (n : Nat) : specTier n = ("", "", "") ↔ n = 0 := by
  unfold specTier
  split_ifs with h0 h4 h6
  · simp [h0]
  · simp only [h0, iff_false]; decide
  · simp only [h0, iff_false]; decide
  · simp only [h0, iff_false]; decide

/-- The watcher of `password1` establishes consistency from any state. -/
theorem watchPassword1_consistent (vm : ViewModel) : Consistent (watchPassword1 vm) := by
  unfold watchPassword1 Consistent
  rw [checkPasswordsMatch_eq]
  refine ⟨?_, ?_, rfl⟩
  · show (checkPasswordStrength vm).score = specScore (checkPasswordStrength vm).password1
    rw [score_checkPasswordStrength, password1_checkPasswordStrength]
  · show ((checkPasswordStrength vm).strength, (checkPasswordStrength vm).feedback,
      (checkPasswordStrength vm).color) = specTier (checkPasswordStrength vm).score
    rw [tier_checkPasswordStrength, score_checkPasswordStrength]

/-- The watcher of `password2` preserves consistency when only `password2`
has been replaced. -/
theorem watchPassword2_consistent (vm : ViewModel) (v : JSString) (h : Consistent vm) :
    Consistent (watchPassword2 { vm with password2 := v }) := by
  unfold watchPassword2
  rw [checkPasswordsMatch_eq]
  exact ⟨h.1, h.2.1, rfl⟩

theorem step_consistent (vm : ViewModel) (c : Change) (h : Consistent vm) :
    Consistent (step vm c) := by
  cases c with
  | primary v => exact watchPassword1_consistent _
  | confirmation v => exact watchPassword2_consistent vm v h

theorem run_consistent (cs : List Change) (vm : ViewModel) (h : Consistent vm) :
    Consistent (run vm cs) := by
  induction cs generalizing vm with
  | nil => exact h
  | cons c cs ih => exact ih (step vm c) (step_consistent vm c h)

theorem passwordValidation_consistent : Consistent passwordValidation := by
  refine ⟨?_, ?_, ?_⟩
  · exact specScore_nil.symm
  · rfl
  · rfl

/-! ## Evaluation on concrete inputs -/

theorem checkPasswordStrength_weak_example :
    checkPasswordStrength { passwordValidation with password1 := js "password" }
      = { passwordValidation with
          password1 := js "password", score := 2, strength := "weak",
          feedback := "Password is too weak", color := "is-danger" } := by
  decide

theorem checkPasswordStrength_medium_example :
    checkPasswordStrength { passwordValidation with password1 := js "Pass-é1" }
      = { passwordValidation with
          password1 := js "Pass-é1", score := 4, strength := "medium",
          feedback := "Password strength: Medium", color := "is-warning" } := by
  decide

theorem checkPasswordStrength_strong_example :
    checkPasswordStrength { passwordValidation with password1 := js "Password123!" }
      = { passwordValidation with
          password1 := js "Password123!", score := 6, strength := "strong",
          feedback := "Password strength: Strong", color := "is-success" } := by
  decide

theorem run_example :
    run passwordValidation [.confirmation (js "Abcdef1!"), .primary (js "Abcdef1!")]
      = { password1 := js "Abcdef1!", password2 := js "Abcdef1!", score := 5,
          strength := "medium", feedback := "Password strength: Medium",
          color := "is-warning", passwordsMatch := true } := by
  decide

/-! ## The scorer and its tiers -/

/-- Claim C1. After `checkPasswordStrength` has run, `score` is the sum of six
0/1 indicators of `password1`: length at least 8, length at least 12, some
uppercase letter, some lowercase letter, some digit, and some code unit that is
none of the three. -/
theorem checkPasswordStrength_score_eq_six_indicators (vm : ViewModel) :
    (checkPasswordStrength vm).score
      = indicator (vm.password1.length ≥ 8) + indicator (vm.password1.length ≥ 12)
        + indicator (∃ c ∈ vm.password1, isUpper c)
        + indicator (∃ c ∈ vm.password1, isLower c)
        + indicator (∃ c ∈ vm.password1, isDigit c)
        + indicator (∃ c ∈ vm.password1, ¬ isUpper c ∧ ¬ isLower c ∧ ¬ isDigit c) :=
  score_checkPasswordStrength vm

/-- Claim C2. For every password (empty and non-ASCII ones included) the score
computed by `checkPasswordStrength` lies between 0 and 6, and `progressValue`
returns exactly that score. -/
theorem checkPasswordStrength_score_range_progressValue (vm : ViewModel) :
    0 ≤ (checkPasswordStrength vm).score ∧ (checkPasswordStrength vm).score ≤ 6
      ∧ progressValue (checkPasswordStrength vm) = (checkPasswordStrength vm).score := by
  refine ⟨Nat.zero_le _, ?_, rfl⟩
  rw [score_checkPasswordStrength]
  exact specScore_le _

/-- Claim C3. After `checkPasswordStrength`, an empty password leaves
`strength`, `feedback` and `color` empty; a non-empty one gets
(`weak`, `is-danger`) below score 4, (`medium`, `is-warning`) for scores 4 and
5, and (`strong`, `is-success`) from score 6. -/
theorem checkPasswordStrength_tier_thresholds (vm : ViewModel) :
    if vm.password1 = [] then
      (checkPasswordStrength vm).strength = "" ∧ (checkPasswordStrength vm).feedback = ""
        ∧ (checkPasswordStrength vm).color = ""
    else
      ((checkPasswordStrength vm).strength, (checkPasswordStrength vm).color)
        = if (checkPasswordStrength vm).score < 4 then ("weak", "is-danger")
          else if 4 ≤ (checkPasswordStrength vm).score ∧ (checkPasswordStrength vm).score < 6 then
            ("medium", "is-warning")
          else ("strong", "is-success") := by
  have ht := tier_checkPasswordStrength vm
  rw [score_checkPasswordStrength]
  by_cases h : vm.password1 = []
  · rw [if_pos h]
    rw [h, specScore_nil] at ht
    simpa [specTier] using ht
  · rw [if_neg h]
    have h1 := specScore_pos _ h
    have h0 : specScore vm.password1 ≠ 0 := by omega
    have hs : (checkPasswordStrength vm).strength = (specTier (specScore vm.password1)).1 := by
      rw [← ht]
    have hc : (checkPasswordStrength vm).color = (specTier (specScore vm.password1)).2.2 := by
      rw [← ht]
    rw [hs, hc]
    unfold specTier
    by_cases h4 : specScore vm.password1 < 4
    · simp [h0, h4]
    · by_cases h6 : specScore vm.password1 < 6
      · have : 4 ≤ specScore vm.password1 := by omega
        simp [h0, h4, h6, this]
      · simp [h0, h4, h6]

/-- Claim C4. After `checkPasswordStrength`, `strength`, `feedback` and `color`
are all empty exactly when the score is 0; the empty password scores 0 and
every non-empty password scores at least 1. -/
theorem checkPasswordStrength_none_tier_iff_score_zero (vm : ViewModel) :
    (((checkPasswordStrength vm).strength = "" ∧ (checkPasswordStrength vm).feedback = ""
        ∧ (checkPasswordStrength vm).color = "") ↔ (checkPasswordStrength vm).score = 0)
      ∧ (if vm.password1 = [] then (checkPasswordStrength vm).score = 0
         else 1 ≤ (checkPasswordStrength vm).score) := by
  have ht := tier_checkPasswordStrength vm
  rw [score_checkPasswordStrength]
  constructor
  · rw [← specTier_eq_none_iff, ← ht]
    simp [Prod.ext_iff]
  · by_cases h : vm.password1 = []
    · rw [if_pos h, h]; exact specScore_nil
    · rw [if_neg h]; exact specScore_pos _ h

/-! ## The match check and the projections -/

/-- Claim C5. The method `checkPasswordsMatch` sets `passwordsMatch` to false
when the confirmation is empty (also when the primary is empty too), and
otherwise to the exact equality of the two code-unit sequences. -/
theorem checkPasswordsMatch_passwordsMatch (vm : ViewModel) :
    (checkPasswordsMatch vm).passwordsMatch
      = if vm.password2 = [] then false else decide (vm.password1 = vm.password2) := by
  rw [checkPasswordsMatch_eq]; rfl

/-- Claim C6. In every state `isSubmitDisabled` holds exactly when the score is
below 4 or the confirmation is non-empty and `passwordsMatch` is false; with an
empty confirmation it holds exactly when the score is below 4. -/
theorem isSubmitDisabled_iff (vm : ViewModel) :
    (isSubmitDisabled vm = true
        ↔ (vm.score < 4 ∨ (vm.password2 ≠ [] ∧ vm.passwordsMatch = false)))
      ∧ (isSubmitDisabled { vm with password2 := [] } = true ↔ vm.score < 4) := by
  constructor
  · simp [isSubmitDisabled, List.length_pos]
  · simp [isSubmitDisabled]

/-- Claim C7. After any sequence of primary-changed and confirmation-changed
transitions from the initial view-model, each followed by its watcher, the
derived fields are consistent with the inputs: the score is the scorer of
`password1`, the presentation fields are the tier of that score, and
`passwordsMatch` is the match check of the two passwords. -/
theorem run_passwordValidation_consistent (cs : List Change) :
    (run passwordValidation cs).score = specScore (run passwordValidation cs).password1
      ∧ ((run passwordValidation cs).strength, (run passwordValidation cs).feedback,
          (run passwordValidation cs).color) = specTier (run passwordValidation cs).score
      ∧ (run passwordValidation cs).passwordsMatch
          = specMatches (run passwordValidation cs).password1
              (run passwordValidation cs).password2 :=
  run_consistent cs passwordValidation passwordValidation_consistent

/-- Claim C8. In every state `matchMessage` is the empty string when the
confirmation is empty, and otherwise `Passwords match` or
`Passwords do not match` according to `passwordsMatch`. -/
theorem matchMessage_eq (vm : ViewModel) :
    matchMessage vm
      = if vm.password2 = [] then ""
        else if vm.passwordsMatch = true then "Passwords match"
        else "Passwords do not match" := by
  unfold matchMessage
  simp only [List.length_eq_zero]

/-- Claim C9. In every state `matchMessageClass` is `is-success` when
`passwordsMatch` is true and `is-danger` otherwise; in particular it is
`is-danger` once the match check has run on an empty confirmation, where
`matchMessage` is the empty string. -/
theorem matchMessageClass_eq (vm : ViewModel) :
    (matchMessageClass vm = if vm.passwordsMatch = true then "is-success" else "is-danger")
      ∧ matchMessageClass (checkPasswordsMatch { vm with password2 := [] }) = "is-danger"
      ∧ matchMessage (checkPasswordsMatch { vm with password2 := [] }) = "" := by
  refine ⟨rfl, ?_, ?_⟩
  · rw [checkPasswordsMatch_eq]; rfl
  · rw [checkPasswordsMatch_eq]; rfl

/-- Claim C10. The watcher of `password2` changes no field other than
`passwordsMatch`, so across a confirmation-changed transition `score`,
`strength`, `feedback`, `color` and `password1` keep their values. -/
theorem confirmation_changed_frame (vm : ViewModel) (v : JSString) :
    watchPassword2 vm = { vm with passwordsMatch := (watchPassword2 vm).passwordsMatch }
      ∧ (step vm (.confirmation v)).score = vm.score
      ∧ (step vm (.confirmation v)).strength = vm.strength
      ∧ (step vm (.confirmation v)).feedback = vm.feedback
      ∧ (step vm (.confirmation v)).color = vm.color
      ∧ (step vm (.confirmation v)).password1 = vm.password1 := by
  refine ⟨?_, ?_, ?_, ?_, ?_, ?_⟩ <;>
    simp only [step, watchPassword2, checkPasswordsMatch] <;> split <;> rfl

/-! ## Recomputation -/

/-- The state that the watcher of `password1` leaves behind. -/
theorem watchPassword1_eq (vm : ViewModel) :
    watchPassword1 vm
      = { password1 := vm.password1, password2 := vm.password2,
          score := specScore vm.password1,
          strength := (specTier (specScore vm.password1)).1,
          feedback := (specTier (specScore vm.password1)).2.1,
          color := (specTier (specScore vm.password1)).2.2,
          passwordsMatch := specMatches vm.password1 vm.password2 } := by
  unfold watchPassword1
  rw [checkPasswordsMatch_eq, checkPasswordStrength_eq]
  rfl

/-- Claim C11. The recompute step, `checkPasswordStrength` followed by
`checkPasswordsMatch`, is idempotent from every state, whatever the derived
fields held before; the score is recomputed, not accumulated. -/
theorem recompute_idempotent (vm : ViewModel) :
    checkPasswordsMatch (checkPasswordStrength
        (checkPasswordsMatch (checkPasswordStrength vm)))
      = checkPasswordsMatch (checkPasswordStrength vm)
    ∧ (checkPasswordStrength (checkPasswordStrength vm)).score
      = (checkPasswordStrength vm).score := by
  constructor
  · have h := watchPassword1_eq vm
    have h2 := watchPassword1_eq (watchPassword1 vm)
    unfold watchPassword1 at h h2
    rw [h2, h]
  · rw [score_checkPasswordStrength, score_checkPasswordStrength,
      password1_checkPasswordStrength]

/-- Claim C12, as stated: the score of `Password1` is 5.  The code gives 4. -/
theorem Password1_score_not_five :
    ¬ (checkPasswordStrength { passwordValidation with password1 := js "Password1" }).score = 5 := by
  decide

/-- Claim C12, amended. The scorer gives `Password1` the score 4 (length at
least 8, uppercase, lowercase, digit), which is tier `medium` with the warning
tag. -/
theorem Password1_scores_four :
    (checkPasswordStrength { passwordValidation with password1 := js "Password1" }).score = 4
      ∧ (checkPasswordStrength { passwordValidation with password1 := js "Password1" }).strength
          = "medium"
      ∧ (checkPasswordStrength { passwordValidation with password1 := js "Password1" }).color
          = "is-warning" := by
  decide

/-- Claim C13. The scorer gives `Password123!` the score 6 with strength
`strong` and colour `is-success`, and `password` the score 2 with strength
`weak` and colour `is-danger`. -/
theorem Password123_and_password_scores :
    ((checkPasswordStrength { passwordValidation with password1 := js "Password123!" }).score = 6
      ∧ (checkPasswordStrength { passwordValidation with password1 := js "Password123!" }).strength
          = "strong"
      ∧ (checkPasswordStrength { passwordValidation with password1 := js "Password123!" }).color
          = "is-success")
    ∧ ((checkPasswordStrength { passwordValidation with password1 := js "password" }).score = 2
      ∧ (checkPasswordStrength { passwordValidation with password1 := js "password" }).strength
          = "weak"
      ∧ (checkPasswordStrength { passwordValidation with password1 := js "password" }).color
          = "is-danger") := by
  decide

/-! ## The scorer of `auth.js` -/

theorem accepts_reSpecialAuth (c : CodeUnit) : reSpecialAuth.accepts c = reSpecial.accepts c := by
  simp only [CharClass.accepts, reSpecialAuth, reSpecial, List.any_cons, List.any_nil,
    Bool.or_false]
  rw [← Bool.or_assoc, ← Bool.or_assoc,
    Bool.or_comm (decide (97 ≤ c.val) && decide (c.val ≤ 122))]

/-- The two negated classes list the same three ranges, in a different order. -/
theorem test_reSpecialAuth (p : JSString) : reSpecialAuth.test p = reSpecial.test p := by
  unfold CharClass.test
  congr 1
  funext c
  exact accepts_reSpecialAuth c

theorem test_reDigitEscape (p : JSString) : reDigitEscape.test p = reDigit.test p := rfl

/-- Points awarded by the five `if` statements of `calculatePasswordStrength`. -/
theorem calculatePasswordStrength_eq (p : JSString) :
    calculatePasswordStrength p
      = indicator (p.length ≥ 8) + indicator (p.length ≥ 12)
        + indicator ((∃ c ∈ p, isLower c) ∧ (∃ c ∈ p, isUpper c))
        + indicator (∃ c ∈ p, isDigit c)
        + indicator (∃ c ∈ p, ¬ isUpper c ∧ ¬ isLower c ∧ ¬ isDigit c) := by
  unfold calculatePasswordStrength indicator
  simp only [← test_reUpper, ← test_reLower, ← test_reDigit, ← test_reSpecial,
    test_reSpecialAuth, test_reDigitEscape, Bool.and_eq_true]
  split_ifs <;> simp_all

/-- Claim C14. For every string, `calculatePasswordStrength` is the sum of
five 0/1 indicators: length at least 8, length at least 12, a lowercase letter
together with an uppercase letter, a digit, and a code unit outside `a-z`,
`A-Z`, `0-9`; so it lies between 0 and 5, and 5 is attained. -/
theorem calculatePasswordStrength_eq_five_indicators (p : JSString) :
    calculatePasswordStrength p
        = indicator (p.length ≥ 8) + indicator (p.length ≥ 12)
          + indicator ((∃ c ∈ p, isLower c) ∧ (∃ c ∈ p, isUpper c))
          + indicator (∃ c ∈ p, isDigit c)
          + indicator (∃ c ∈ p, ¬ isLower c ∧ ¬ isUpper c ∧ ¬ isDigit c)
      ∧ 0 ≤ calculatePasswordStrength p ∧ calculatePasswordStrength p ≤ 5
      ∧ ∃ q : JSString, calculatePasswordStrength q = 5 := by
  have hswap : (∃ c ∈ p, ¬ isLower c ∧ ¬ isUpper c ∧ ¬ isDigit c)
      ↔ (∃ c ∈ p, ¬ isUpper c ∧ ¬ isLower c ∧ ¬ isDigit c) :=
    exists_congr fun c => and_congr_right fun _ => and_left_comm
  have heq := calculatePasswordStrength_eq p
  refine ⟨?_, Nat.zero_le _, ?_, ⟨js "Password123!", by decide⟩⟩
  · rw [heq]
    simp only [hswap]
  · rw [heq]
    unfold indicator
    split_ifs <;> omega

/-- Claim C15. The two scoring rules are not numerically compatible: some
password gets different scores from `checkPasswordStrength` and from
`calculatePasswordStrength`. -/
theorem scorers_differ :
    ∃ p : JSString,
      (checkPasswordStrength { passwordValidation with password1 := p }).score
        ≠ calculatePasswordStrength p :=
  ⟨js "a", by decide⟩

/-- Claim C16, as stated: some string separates the special-character test of
`calculatePasswordStrength` from that of `checkPasswordStrength`.  No string
does. -/
theorem no_string_separates_special_tests :
    ¬ ∃ s : JSString, reSpecialAuth.test s ≠ reSpecial.test s := by
  rintro ⟨s, hs⟩
  exact hs (test_reSpecialAuth s)

/-- Claim C16, amended. The special-character test of
`calculatePasswordStrength`, `/[^a-zA-Z0-9]/`, and that of
`checkPasswordStrength`, `/[^A-Za-z0-9]/`, accept the same code units and
give the same answer on every string. -/
theorem special_tests_agree (s : JSString) (c : CodeUnit) :
    reSpecialAuth.accepts c = reSpecial.accepts c
      ∧ reSpecialAuth.test s = reSpecial.test s :=
  ⟨accepts_reSpecialAuth c, test_reSpecialAuth s⟩

/-! ## The indicator of `auth.js` -/

theorem matching_concat (f g : Forest) :
    (f.concat g).matching = f.matching ++ g.matching := by
  induction f with
  | nil => rfl
  | cons e c s _ ihs => simp [Forest.concat, Forest.matching, ihs, List.append_assoc]

/-- Nothing is removed exactly when nothing matches. -/
theorem removeFirst_eq_none_iff (f : Forest) : f.removeFirst = none ↔ f.matching = [] := by
  induction f with
  | nil => simp [Forest.removeFirst, Forest.matching]
  | cons e c s ihc ihs =>
    unfold Forest.removeFirst Forest.matching
    by_cases he : e.matchesSelector = true
    · simp [he]
    · cases hc : c.removeFirst <;> cases hs : s.removeFirst <;> simp_all

/-- A removal takes at least one matching element away. -/
theorem matching_removeFirst_lt (f f' : Forest) (h : f.removeFirst = some f') :
    f'.matching.length < f.matching.length := by
  induction f generalizing f' with
  | nil => simp [Forest.removeFirst] at h
  | cons e c s ihc ihs =>
    unfold Forest.removeFirst at h
    by_cases he : e.matchesSelector = true
    · simp only [he, if_true, Option.some.injEq] at h
      subst h
      simp [Forest.matching, he]
      omega
    · have he' : e.matchesSelector = false := by simpa using he
      simp only [he', Bool.false_eq_true, if_false] at h
      cases hc : c.removeFirst with
      | some c' =>
        simp only [hc, Option.some.injEq] at h
        subst h
        have := ihc c' hc
        simp [Forest.matching, he']
        omega
      | none =>
        cases hs : s.removeFirst with
        | some s' =>
          simp only [hc, hs, Option.some.injEq] at h
          subst h
          have := ihs s' hs
          simp [Forest.matching, he']
          omega
        | none => simp [hc, hs] at h

/-- With at most one matching element under the parent, none of them the
field, the removal leaves the field attached and no matching element. -/
theorem removeIndicator_clean (p : ParentElement) (hfield : p.field.matchesSelector = false)
    (hone : p.children.matching.length ≤ 1) :
    ∃ q, removeIndicator p = .attached q ∧ q.children.matching = [] := by
  have hlen : p.before.matching.length + (p.inside.matching.length + p.after.matching.length)
      ≤ 1 := by
    simpa [ParentElement.children, matching_concat, Forest.matching, hfield] using hone
  have hnil : ∀ l : List Element, l.length = 0 → l = [] := fun l => List.length_eq_zero.mp
  unfold removeIndicator
  cases hb : p.before.removeFirst with
  | some b =>
    have := matching_removeFirst_lt _ _ hb
    refine ⟨{ p with before := b }, rfl, ?_⟩
    simp only [ParentElement.children, matching_concat, Forest.matching, hfield]
    rw [hnil b.matching (by omega), hnil p.inside.matching (by omega),
      hnil p.after.matching (by omega)]
    rfl
  | none =>
    have hb0 := (removeFirst_eq_none_iff _).mp hb
    simp only [hfield, Bool.false_eq_true, if_false]
    cases hi : p.inside.removeFirst with
    | some i =>
      have := matching_removeFirst_lt _ _ hi
      refine ⟨{ p with inside := i }, rfl, ?_⟩
      simp only [ParentElement.children, matching_concat, Forest.matching, hfield]
      rw [hb0, hnil i.matching (by omega), hnil p.after.matching (by omega)]
      rfl
    | none =>
      have hi0 := (removeFirst_eq_none_iff _).mp hi
      cases ha : p.after.removeFirst with
      | some a =>
        have := matching_removeFirst_lt _ _ ha
        refine ⟨{ p with after := a }, rfl, ?_⟩
        simp only [ParentElement.children, matching_concat, Forest.matching, hfield]
        rw [hb0, hi0, hnil a.matching (by omega)]
        rfl
      | none =>
        have ha0 := (removeFirst_eq_none_iff _).mp ha
        refine ⟨p, rfl, ?_⟩
        simp only [ParentElement.children, matching_concat, Forest.matching, hfield]
        rw [hb0, hi0, ha0]
        rfl

theorem matching_children_append (q : ParentElement) (g : Forest) :
    ({ q with after := q.after.concat g } : ParentElement).children.matching
      = q.children.matching ++ g.matching := by
  simp [ParentElement.children, matching_concat, Forest.matching, List.append_assoc]

/-- Claim C17, as stated: for every value and strength no indicator is shown
when the value is empty, and otherwise exactly one with the text
`Weak password`, `Moderate password` or `Strong password`.  On a parent
without any indicator the text shown for strength 0 carries a leading symbol;
with two stale indicators after the field an empty value still leaves one
shown; and a field that itself matches `.password-strength` is removed, after
which a non-empty value makes the call throw. -/
theorem indicatorTexts_departures :
    (indicatorTexts (updatePasswordStrength (js "abc") 0
          (.attached ⟨.nil, Element.mk [] "" "" "" "", .nil, .nil⟩))
        = some ["⚠️ Weak password"]
      ∧ ¬ indicatorTexts (updatePasswordStrength (js "abc") 0
          (.attached ⟨.nil, Element.mk [] "" "" "" "", .nil, .nil⟩))
        = some ["Weak password"])
    ∧ (indicatorTexts (updatePasswordStrength [] 0
          (.attached ⟨.nil, Element.mk [] "" "" "" "", .nil,
            .cons (Element.mk ["password-strength"] "0.5rem" "0.875rem" "✓ Strong password"
                "#28a745") .nil
              (.cons (Element.mk ["password-strength"] "0.5rem" "0.875rem"
                "✓ Moderate password" "#ffc107") .nil .nil)⟩))
        = some ["✓ Moderate password"]
      ∧ ¬ indicatorTexts (updatePasswordStrength [] 0
          (.attached ⟨.nil, Element.mk [] "" "" "" "", .nil,
            .cons (Element.mk ["password-strength"] "0.5rem" "0.875rem" "✓ Strong password"
                "#28a745") .nil
              (.cons (Element.mk ["password-strength"] "0.5rem" "0.875rem"
                "✓ Moderate password" "#ffc107") .nil .nil)⟩))
        = some [])
    ∧ indicatorTexts (updatePasswordStrength (js "abc") 0
          (.attached ⟨.nil, Element.mk ["password-strength"] "" "" "" "", .nil, .nil⟩))
        = none := by
  decide

/-- Claim C17, amended. When the field is attached and its parent holds at
most one `.password-strength` element, which is not the field itself,
`updatePasswordStrength` returns and leaves no indicator under the parent when
the field value is empty, and otherwise exactly one, whose text is fixed by the
strength alone: `⚠️ Weak password` below 2, `✓ Moderate password` for 2 and 3,
`✓ Strong password` from 4. -/
theorem updatePasswordStrength_shows (v : JSString) (n : Nat) (p : ParentElement)
    (hfield : p.field.matchesSelector = false) (hone : p.children.matching.length ≤ 1) :
    indicatorTexts (updatePasswordStrength v n (.attached p))
      = some (if v = [] then []
              else [if n < 2 then "⚠️ Weak password"
                    else if 2 ≤ n ∧ n < 4 then "✓ Moderate password"
                    else "✓ Strong password"]) := by
  obtain ⟨q, hq, hq0⟩ := removeIndicator_clean p hfield hone
  unfold updatePasswordStrength
  simp only [hq]
  by_cases hv : v = []
  · subst hv
    simp [indicatorTexts, FieldState.children, hq0]
  · have hl : v.length > 0 := List.length_pos.mpr hv
    simp only [hl, hv, if_true, if_false, indicatorTexts, FieldState.children,
      matching_children_append, hq0, List.nil_append]
    by_cases h2 : n < 2
    · simp only [h2, if_true]; rfl
    · by_cases h4 : n < 4
      · have h24 : 2 ≤ n ∧ n < 4 := ⟨by omega, h4⟩
        simp only [h2, h4, h24, if_true, if_false]; rfl
      · have h24 : ¬ (2 ≤ n ∧ n < 4) := fun h => h4 h.2
        rw [if_neg h2, if_neg h24]
        simp only [h2, h4, if_false]; rfl

/-- An instance of claim C17 with a stale indicator before the field. -/
theorem updatePasswordStrength_shows_witness :
    (Element.mk [] "" "" "" "").matchesSelector = false
      ∧ (ParentElement.mk
            (.cons (Element.mk ["help", "password-strength"] "0.5rem" "0.875rem"
              "✓ Strong password" "#28a745") .nil .nil)
            (Element.mk [] "" "" "" "") .nil .nil).children.matching.length ≤ 1
      ∧ indicatorTexts (updatePasswordStrength (js "abc") 3
          (.attached (ParentElement.mk
            (.cons (Element.mk ["help", "password-strength"] "0.5rem" "0.875rem"
              "✓ Strong password" "#28a745") .nil .nil)
            (Element.mk [] "" "" "" "") .nil .nil)))
        = some (if js "abc" = [] then []
                else [if 3 < 2 then "⚠️ Weak password"
                      else if 2 ≤ 3 ∧ 3 < 4 then "✓ Moderate password"
                      else "✓ Strong password"]) :=
  ⟨by decide, by decide, updatePasswordStrength_shows (js "abc") 3 _ (by decide) (by decide)⟩


/-! ## Relations between the two scorers -/

theorem indicator_le_one (P : Prop) [Decidable P] : indicator P ≤ 1 := by
  unfold indicator; split <;> omega

theorem indicator_eq_one_iff (P : Prop) [Decidable P] : indicator P = 1 ↔ P := by
  unfold indicator; split <;> simp [*]

theorem indicator_mono (P Q : Prop) [Decidable P] [Decidable Q] (h : P → Q) :
    indicator P ≤ indicator Q := by
  unfold indicator
  by_cases hP : P
  · simp [hP, h hP]
  · simp only [hP, if_false]; exact Nat.zero_le _

/-- Claim C18. For every password the score of `checkPasswordStrength` is the
value of `calculatePasswordStrength` plus one when the password contains a
letter `A-Z` or `a-z`, and the same value otherwise; so it lies between that
value and that value plus one. -/
theorem canonical_score_eq_simple_plus_letter (vm : ViewModel) :
    (checkPasswordStrength vm).score
        = calculatePasswordStrength vm.password1
          + indicator (∃ c ∈ vm.password1, isUpper c ∨ isLower c)
      ∧ calculatePasswordStrength vm.password1 ≤ (checkPasswordStrength vm).score
      ∧ (checkPasswordStrength vm).score ≤ calculatePasswordStrength vm.password1 + 1 := by
  have key : (checkPasswordStrength vm).score
      = calculatePasswordStrength vm.password1
        + indicator (∃ c ∈ vm.password1, isUpper c ∨ isLower c) := by
    have hUL : (∃ c ∈ vm.password1, isUpper c ∨ isLower c)
        ↔ ((∃ c ∈ vm.password1, isUpper c) ∨ (∃ c ∈ vm.password1, isLower c)) := by
      constructor
      · rintro ⟨c, hc, h | h⟩
        · exact Or.inl ⟨c, hc, h⟩
        · exact Or.inr ⟨c, hc, h⟩
      · rintro (⟨c, hc, h⟩ | ⟨c, hc, h⟩)
        · exact ⟨c, hc, Or.inl h⟩
        · exact ⟨c, hc, Or.inr h⟩
    rw [score_checkPasswordStrength, calculatePasswordStrength_eq]
    unfold specScore indicator
    simp only [hUL]
    by_cases hU : ∃ c ∈ vm.password1, isUpper c <;>
      by_cases hL : ∃ c ∈ vm.password1, isLower c <;>
      simp only [hU, hL, and_self, and_true, and_false, or_self, or_true, or_false, if_true,
        if_false] <;> omega
  have h1 := indicator_le_one (∃ c ∈ vm.password1, isUpper c ∨ isLower c)
  exact ⟨key, by omega, by omega⟩

theorem exists_mem_mono (s u : JSString) (hsub : ∀ c ∈ s, c ∈ u) (P : CodeUnit → Prop) :
    (∃ c ∈ s, P c) → ∃ c ∈ u, P c := by
  rintro ⟨c, hc, h⟩
  exact ⟨c, hsub c hc, h⟩

/-- Each of the six predicates survives the passage to a longer string that
contains every code unit of the shorter one. -/
theorem specScore_mono (s u : JSString) (hlen : s.length ≤ u.length)
    (hsub : ∀ c ∈ s, c ∈ u) : specScore s ≤ specScore u := by
  unfold specScore
  refine Nat.add_le_add (Nat.add_le_add (Nat.add_le_add (Nat.add_le_add
    (Nat.add_le_add ?_ ?_) ?_) ?_) ?_) ?_
  · exact indicator_mono _ _ fun h => Nat.le_trans h hlen
  · exact indicator_mono _ _ fun h => Nat.le_trans h hlen
  · exact indicator_mono _ _ (exists_mem_mono s u hsub _)
  · exact indicator_mono _ _ (exists_mem_mono s u hsub _)
  · exact indicator_mono _ _ (exists_mem_mono s u hsub _)
  · exact indicator_mono _ _ (exists_mem_mono s u hsub _)

theorem calculatePasswordStrength_mono (s u : JSString) (hlen : s.length ≤ u.length)
    (hsub : ∀ c ∈ s, c ∈ u) : calculatePasswordStrength s ≤ calculatePasswordStrength u := by
  rw [calculatePasswordStrength_eq, calculatePasswordStrength_eq]
  refine Nat.add_le_add (Nat.add_le_add (Nat.add_le_add (Nat.add_le_add ?_ ?_) ?_) ?_) ?_
  · exact indicator_mono _ _ fun h => Nat.le_trans h hlen
  · exact indicator_mono _ _ fun h => Nat.le_trans h hlen
  · exact indicator_mono _ _ fun h =>
      ⟨exists_mem_mono s u hsub _ h.1, exists_mem_mono s u hsub _ h.2⟩
  · exact indicator_mono _ _ (exists_mem_mono s u hsub _)
  · exact indicator_mono _ _ (exists_mem_mono s u hsub _)

/-- Claim C19. Both scorers are monotone under extension: for all strings `s`
and `t` the score of `s` is at most the score of `s` followed by `t` and of
`t` followed by `s`, for `checkPasswordStrength` and for
`calculatePasswordStrength`. -/
theorem scorers_monotone_under_extension (vm : ViewModel) (s t : JSString) :
    ((checkPasswordStrength { vm with password1 := s }).score
        ≤ (checkPasswordStrength { vm with password1 := s ++ t }).score
      ∧ (checkPasswordStrength { vm with password1 := s }).score
        ≤ (checkPasswordStrength { vm with password1 := t ++ s }).score)
    ∧ (calculatePasswordStrength s ≤ calculatePasswordStrength (s ++ t)
      ∧ calculatePasswordStrength s ≤ calculatePasswordStrength (t ++ s)) := by
  have hl1 : s.length ≤ (s ++ t).length := by rw [List.length_append]; omega
  have hl2 : s.length ≤ (t ++ s).length := by rw [List.length_append]; omega
  have hs1 : ∀ c ∈ s, c ∈ s ++ t := fun c hc => List.mem_append.mpr (Or.inl hc)
  have hs2 : ∀ c ∈ s, c ∈ t ++ s := fun c hc => List.mem_append.mpr (Or.inr hc)
  simp only [score_checkPasswordStrength]
  exact ⟨⟨specScore_mono _ _ hl1 hs1, specScore_mono _ _ hl2 hs2⟩,
    calculatePasswordStrength_mono _ _ hl1 hs1, calculatePasswordStrength_mono _ _ hl2 hs2⟩

theorem specTier_strong_iff (n : Nat) : (specTier n).1 = "strong" ↔ 6 ≤ n := by
  unfold specTier
  split_ifs with h0 h4 h6
  · simp only [h0]; decide
  · have : ¬ 6 ≤ n := by omega
    simp only [this, iff_false]; decide
  · have : ¬ 6 ≤ n := by omega
    simp only [this, iff_false]; decide
  · have : 6 ≤ n := by omega
    simp only [this, iff_true]

/-- Claim C20. The method `checkPasswordStrength` rates a password `strong`
exactly when it has length at least 12 and contains an uppercase letter, a
lowercase letter, a digit and a code unit that is none of these; no password
shorter than 12 is rated `strong`. -/
theorem strong_iff_all_six (vm : ViewModel) :
    ((checkPasswordStrength vm).strength = "strong"
        ↔ (12 ≤ vm.password1.length ∧ (∃ c ∈ vm.password1, isUpper c)
            ∧ (∃ c ∈ vm.password1, isLower c) ∧ (∃ c ∈ vm.password1, isDigit c)
            ∧ (∃ c ∈ vm.password1, ¬ isUpper c ∧ ¬ isLower c ∧ ¬ isDigit c)))
      ∧ ¬ (vm.password1.length < 12 ∧ (checkPasswordStrength vm).strength = "strong") := by
  have hs : (checkPasswordStrength vm).strength = (specTier (specScore vm.password1)).1 := by
    rw [← tier_checkPasswordStrength]
  have h8 := indicator_le_one (vm.password1.length ≥ 8)
  have h12 := indicator_le_one (vm.password1.length ≥ 12)
  have hU := indicator_le_one (∃ c ∈ vm.password1, isUpper c)
  have hL := indicator_le_one (∃ c ∈ vm.password1, isLower c)
  have hD := indicator_le_one (∃ c ∈ vm.password1, isDigit c)
  have hS := indicator_le_one (∃ c ∈ vm.password1, ¬ isUpper c ∧ ¬ isLower c ∧ ¬ isDigit c)
  have key : (checkPasswordStrength vm).strength = "strong"
      ↔ (12 ≤ vm.password1.length ∧ (∃ c ∈ vm.password1, isUpper c)
          ∧ (∃ c ∈ vm.password1, isLower c) ∧ (∃ c ∈ vm.password1, isDigit c)
          ∧ (∃ c ∈ vm.password1, ¬ isUpper c ∧ ¬ isLower c ∧ ¬ isDigit c)) := by
    rw [hs, specTier_strong_iff]
    unfold specScore
    constructor
    · intro h
      exact ⟨(indicator_eq_one_iff (vm.password1.length ≥ 12)).mp (by omega),
        (indicator_eq_one_iff _).mp (by omega),
        (indicator_eq_one_iff _).mp (by omega), (indicator_eq_one_iff _).mp (by omega),
        (indicator_eq_one_iff _).mp (by omega)⟩
    · rintro ⟨a, b, c, d, e⟩
      have a8 : vm.password1.length ≥ 8 := by omega
      have e1 := (indicator_eq_one_iff _).mpr a8
      have e2 := (indicator_eq_one_iff (vm.password1.length ≥ 12)).mpr a
      have e3 := (indicator_eq_one_iff _).mpr b
      have e4 := (indicator_eq_one_iff _).mpr c
      have e5 := (indicator_eq_one_iff _).mpr d
      have e6 := (indicator_eq_one_iff _).mpr e
      omega
  refine ⟨key, ?_⟩
  rintro ⟨hlt, hstrong⟩
  have := (key.mp hstrong).1
  omega

end QuickScale
